import Mathlib

/-!
Shallow embedding of the rollup HTTP service of
src/rollup-http/rollup-http-server/src/http_service.rs (together with the
ioctl wrapper of src/rollup-http/rollup-http-server/src/lib.rs).  Pure data
and control flow are translated directly from the source; the kernel rollup
device and the state-drive block device appear as explicit oracle records.
Types and functions living in rollup.rs, which is not among the sources,
are reconstructed from the specification and carry a doc comment starting
with the words Modelled from the spec.
-/

namespace RollupHttp

/-- Modelled from the spec: rollup.rs (absent from the sources) defines
AdvanceRequest; the spec treats it as opaque metadata plus an input payload,
immutable once received, so it is embedded as an opaque byte payload. -/
structure AdvanceRequest where
  payload : List Nat
  deriving DecidableEq

/-- Modelled from the spec: rollup.rs defines InspectRequest, likewise
opaque to the dispatch layer. -/
structure InspectRequest where
  payload : List Nat
  deriving DecidableEq

/-- Modelled from the spec: rollup.rs defines the tagged union RollupRequest
with exactly two variants, Advance and Inspect. -/
inductive RollupRequest where
  | Advance (data : AdvanceRequest)
  | Inspect (data : InspectRequest)
  deriving DecidableEq

/-- Public shape of a rollup request (http_service.rs lines 56 to 63): a
serde-tagged enum whose tag field is request_type, with the variants renamed
advance_state and inspect_state, each carrying a data field. -/
inductive RollupHttpRequest where
  | advanceState (data : AdvanceRequest)
  | inspectState (data : InspectRequest)
  deriving DecidableEq

/-- The request_type discriminator string of the JSON encoding of a
RollupHttpRequest value (the serde tag of http_service.rs lines 57 to 62). -/
def RollupHttpRequest.requestType : RollupHttpRequest → String
  | RollupHttpRequest.advanceState _ => "advance_state"
  | RollupHttpRequest.inspectState _ => "inspect_state"

/-- Modelled from the spec: rollup.rs defines the struct that the finish
transaction returns; the only field http_service.rs reads is the
discriminator next_request_type (0 advance, 1 inspect).  The kernel field is
a signed integer, hence Int. -/
structure RollupFinish where
  next_request_type : Int
  deriving DecidableEq

/-- HTTP body of POST /finish: a status string (rollup.rs FinishRequest,
used in http_service.rs line 239 as finish.status). -/
structure FinishRequest where
  status : String
  deriving DecidableEq

/-- HTTP body of POST /voucher (rollup.rs Voucher): a destination address
string and an opaque payload. -/
structure Voucher where
  destination : String
  payload : List Nat
  deriving DecidableEq

/-- Rust str::starts_with on the embedded strings: a character-level prefix
test (the strings involved are ASCII, so the byte-level test of the source
coincides with it). -/
def strStartsWith (s p : String) : Bool := p.data.isPrefixOf s.data

/-- Modelled from the spec: CARTESI_ROLLUP_ADDRESS_SIZE is a constant of
rollup.rs, absent from the sources.  The spec keeps ADDRESS_SIZE symbolic in
the invariant that a destination has 2 x ADDRESS_SIZE + 2 characters; the
rollup destination is a 20-byte EVM address, so the constant is 20 and a
well-formed destination string has 42 characters.  No theorem below depends
on the particular value. -/
def CARTESI_ROLLUP_ADDRESS_SIZE : Nat := 20

/-- Result of one HTTP handler.  The constructor aborted models a Rust panic
raised by expect inside the handler: the request is dropped without any HTTP
response being produced. -/
inductive HOutcome where
  | text (status : Nat) (body : String)
  | jsonIndex (status : Nat) (index : Nat)
  | jsonRollup (status : Nat) (req : RollupHttpRequest)
  | octets (status : Nat) (data : List Nat)
  | jsonSize (status : Nat) (size : Nat)
  | aborted (msg : String)
  deriving DecidableEq

/-- Whether a handler outcome is an HTTP response at all; an aborted handler
produces none. -/
def HOutcome.isResponse : HOutcome → Bool
  | HOutcome.aborted _ => false
  | _ => true

/-- One observable interaction of a handler with the shared rollup device
handle: taking the per-worker context lock, taking the rollup_fd mutex, and
the individual device transactions. -/
inductive DeviceCall where
  | lockContext
  | lockDevice
  | finishTx (accept : Bool)
  | readAdvance
  | readInspect
  | writeVoucher (v : Voucher)
  deriving DecidableEq

/-- Whether a device interaction is the finish transaction. -/
def DeviceCall.isFinishTx : DeviceCall → Bool
  | DeviceCall.finishTx _ => true
  | _ => false

/-- Oracle giving the outcome of each kernel rollup-device transaction a
handler may issue (the driver interface of rollup.rs at the FFI boundary):
each field is the result the device would return for that transaction. -/
structure RollupDevice where
  finishResp : Bool → Except String RollupFinish
  advanceResp : Except String AdvanceRequest
  inspectResp : Except String InspectRequest
  voucherResp : Voucher → Except String Nat

/-- Modelled from the spec: handle_rollup_requests lives in rollup.rs, absent
from the sources.  Per the spec, discriminator 0 triggers the advance payload
read, 1 the inspect payload read, and any other value is a protocol error
described as an unknown request type.  The second component is the list of
device reads performed. -/
def handle_rollup_requests (dev : RollupDevice) (fr : RollupFinish) :
    Except String RollupRequest × List DeviceCall :=
  if fr.next_request_type = 0 then
    (match dev.advanceResp with
      | Except.ok a => Except.ok (RollupRequest.Advance a)
      | Except.error e => Except.error e,
     [DeviceCall.readAdvance])
  else if fr.next_request_type = 1 then
    (match dev.inspectResp with
      | Except.ok i => Except.ok (RollupRequest.Inspect i)
      | Except.error e => Except.error e,
     [DeviceCall.readInspect])
  else (Except.error "unknown request type", [])

/-- Body of the finish handler after status validation (http_service.rs lines
252 to 305): take the context lock, take the rollup_fd mutex, issue the
finish transaction with the given boolean, dispatch on its result, fetch the
typed request, and translate the tagged value to its public shape.  Returns
the outcome paired with the trace of device interactions. -/
def finishCore (dev : RollupDevice) (accept : Bool) : HOutcome × List DeviceCall :=
  match dev.finishResp accept with
  | Except.error e =>
      (HOutcome.text 400 ("error performing initial finish request: " ++ e),
       [DeviceCall.lockContext, DeviceCall.lockDevice, DeviceCall.finishTx accept])
  | Except.ok fr =>
      match handle_rollup_requests dev fr with
      | (Except.error e, calls) =>
          (HOutcome.text 400 ("error performing handle_rollup_requests: " ++ e),
           [DeviceCall.lockContext, DeviceCall.lockDevice, DeviceCall.finishTx accept] ++ calls)
      | (Except.ok (RollupRequest.Advance a), calls) =>
          (HOutcome.jsonRollup 200 (RollupHttpRequest.advanceState a),
           [DeviceCall.lockContext, DeviceCall.lockDevice, DeviceCall.finishTx accept] ++ calls)
      | (Except.ok (RollupRequest.Inspect i), calls) =>
          (HOutcome.jsonRollup 200 (RollupHttpRequest.inspectState i),
           [DeviceCall.lockContext, DeviceCall.lockDevice, DeviceCall.finishTx accept] ++ calls)

/-- The finish handler (http_service.rs lines 236 to 305).  The status string
is matched first: accept maps to the boolean true, reject to false, and
anything else returns 400 with no device interaction.  The quote characters
inside the source status message are elided. -/
def finish (dev : RollupDevice) (req : FinishRequest) : HOutcome × List DeviceCall :=
  if req.status = "accept" then finishCore dev true
  else if req.status = "reject" then finishCore dev false
  else (HOutcome.text 400 "status must be accept or reject", [])

/-- The voucher handler (http_service.rs lines 110 to 144): the destination
length and 0x prefix are checked before any locking or device interaction; a
destination passing the check is handed to the device voucher write and the
assigned index is returned with 201, while a device error becomes a 400 with
the error text appended. -/
def voucher (dev : RollupDevice) (v : Voucher) : HOutcome × List DeviceCall :=
  if v.destination.length ≠ CARTESI_ROLLUP_ADDRESS_SIZE * 2 + 2
      ∨ strStartsWith v.destination "0x" = false then
    (HOutcome.text 400 "address not valid", [])
  else
    match dev.voucherResp v with
    | Except.ok idx =>
        (HOutcome.jsonIndex 201 idx,
         [DeviceCall.lockContext, DeviceCall.lockDevice, DeviceCall.writeVoucher v])
    | Except.error e =>
        (HOutcome.text 400 ("unable to insert voucher, error details: " ++ e),
         [DeviceCall.lockContext, DeviceCall.lockDevice, DeviceCall.writeVoucher v])

/-- Environment of one raw-state request: whether each external step (open,
BLKGETSIZE64 size query, mmap on a writable descriptor, flush) succeeds,
together with the byte contents of the state drive.  The block device
capacity is the length of drive, which is both what the size query reports
and the length of the full mapping. -/
structure StateDriveEnv where
  openReadOk : Bool
  openRwOk : Bool
  sizeOk : Bool
  mapOk : Bool
  flushOk : Bool
  drive : List Nat
  deriving DecidableEq

/-- Whether MmapMut.map_mut succeeds.  It always requests a shared writable
mapping (PROT_READ plus PROT_WRITE with MAP_SHARED), and mmap refuses such a
mapping with EACCES whenever the descriptor was not opened for writing,
independently of the rest of the environment; on a writable descriptor the
success is up to the operating system, modelled by osMapOk. -/
def mapMut (writableFd : Bool) (osMapOk : Bool) : Bool := writableFd && osMapOk

/-- Modulus of usize arithmetic on the 64-bit target: release builds wrap
additions modulo 2 ^ 64. -/
def USIZE_MOD : Nat := 2 ^ 64

/-- The bounds test of raw_state_read (http_service.rs line 326): the usize
sum offset + size wraps modulo 2 ^ 64 before being compared with the device
capacity. -/
def readBoundsExceeded (offset size capacity : Nat) : Bool :=
  (offset + size) % USIZE_MOD > capacity

/-- The bounds test of raw_state_write (http_service.rs line 356): the usize
sum offset + body length wraps modulo 2 ^ 64 before being compared with the
mapped length. -/
def writeBoundsExceeded (offset len mmapLen : Nat) : Bool :=
  (offset + len) % USIZE_MOD > mmapLen

/-- The raw_state_read handler (http_service.rs lines 308 to 334).  The drive
is opened with File.open, which yields a read-only descriptor; the handler
then queries the capacity, maps the file mutably through expect, checks the
bounds, and copies the requested window.  Rust slice indexing panics when the
wrapped end of the range lies before the offset. -/
def raw_state_read (env : StateDriveEnv) (offset size : Nat) : HOutcome :=
  if env.openReadOk = false then HOutcome.text 500 "Failed to open pmem device"
  else if env.sizeOk = false then HOutcome.text 500 "Failed to get device size"
  else if mapMut false env.mapOk = false then HOutcome.aborted "Failed to map the file"
  else if readBoundsExceeded offset size env.drive.length then
    HOutcome.text 400 "Offset and size exceed memory bounds"
  else if (offset + size) % USIZE_MOD < offset then
    HOutcome.aborted "slice index out of range"
  else
    HOutcome.octets 200 ((env.drive.drop offset).take ((offset + size) % USIZE_MOD - offset))

/-- The raw_state_write handler (http_service.rs lines 337 to 364): open the
drive read-write, query the size (the result is bound but unused), map the
file mutably through expect, bounds-check the wrapped end against the mapped
length, copy the body into the mapped window in place, and flush through
expect.  copy_from_slice additionally panics when the window length differs
from the body length, which is possible only under wrapping.  The updated
environment carries the new drive contents; on the flush panic the copy has
already happened, matching the absence of rollback in the source. -/
def raw_state_write (env : StateDriveEnv) (offset : Nat) (bytes : List Nat) :
    HOutcome × StateDriveEnv :=
  if env.openRwOk = false then (HOutcome.text 500 "Failed to open pmem device", env)
  else if env.sizeOk = false then (HOutcome.text 500 "Failed to get device size", env)
  else if mapMut true env.mapOk = false then (HOutcome.aborted "Failed to map the file", env)
  else if writeBoundsExceeded offset bytes.length env.drive.length then
    (HOutcome.text 400 "Offset and size exceed memory bounds", env)
  else if (offset + bytes.length) % USIZE_MOD < offset then
    (HOutcome.aborted "slice index out of range", env)
  else if (offset + bytes.length) % USIZE_MOD - offset ≠ bytes.length then
    (HOutcome.aborted "copy length mismatch", env)
  else
    let newDrive :=
      env.drive.take offset ++ bytes ++ env.drive.drop ((offset + bytes.length) % USIZE_MOD)
    if env.flushOk = false then
      (HOutcome.aborted "Failed to flush the changes", { env with drive := newDrive })
    else (HOutcome.text 200 "Data written successfully", { env with drive := newDrive })

/-- The raw_state_size handler (http_service.rs lines 367 to 382): open the
drive read-only, query and report the capacity. -/
def raw_state_size (env : StateDriveEnv) : HOutcome :=
  if env.openReadOk = false then HOutcome.text 500 "Failed to open pmem device"
  else if env.sizeOk = false then HOutcome.text 500 "Failed to get device size"
  else HOutcome.jsonSize 200 env.drive.length

/-- Modelled from the spec: the read path of the raw state accessor opens the
state drive read-write, as required to map it.  This is the read the
specification describes; the raw_state_read of the source instead opens the
drive read-only.  It is used to show that the round trip claimed by the
specification is exactly what the write path supports. -/
def raw_state_read_intended (env : StateDriveEnv) (offset size : Nat) : HOutcome :=
  if env.openRwOk = false then HOutcome.text 500 "Failed to open pmem device"
  else if env.sizeOk = false then HOutcome.text 500 "Failed to get device size"
  else if mapMut true env.mapOk = false then HOutcome.aborted "Failed to map the file"
  else if readBoundsExceeded offset size env.drive.length then
    HOutcome.text 400 "Offset and size exceed memory bounds"
  else if (offset + size) % USIZE_MOD < offset then
    HOutcome.aborted "slice index out of range"
  else
    HOutcome.octets 200 ((env.drive.drop offset).take ((offset + size) % USIZE_MOD - offset))

/-- The process environment, a map from variable names to optional values. -/
def EnvMap : Type := String → Option String

/-- init_state_drive (http_service.rs lines 45 to 54): read STATE_DRIVE from
the environment; when unset, use /dev/pmem1 and write that default back into
the environment under the same name. -/
def init_state_drive (env : EnvMap) : String × EnvMap :=
  match env "STATE_DRIVE" with
  | some value => (value, env)
  | none =>
      ("/dev/pmem1", fun k => if k = "STATE_DRIVE" then some "/dev/pmem1" else env k)

/-- Scheduler state of the shared-device mutual exclusion model.  pc t is the
program counter of connection t through the common handler shape of
http_service.rs (take the rollup_fd mutex, run the device transaction,
release by dropping the guard), and owner is the current holder of the
async mutex.  pc values: 0 before acquisition, 1 holding the mutex before the
transaction, 2 with the device transaction in flight, 3 holding after it,
4 released. -/
structure LockState where
  owner : Option Nat
  pc : Nat → Nat

/-- Pointwise update of a program counter map. -/
def setPc (f : Nat → Nat) (t v : Nat) : Nat → Nat := fun u => if u = t then v else f u

/-- Initial scheduler state: the mutex is free and every connection is before
its acquisition. -/
def initLock : LockState := { owner := none, pc := fun _ => 0 }

/-- One interleaving step.  Acquisition suspends until the mutex is free
(side condition owner = none) and records the new owner; the steps inside the
critical section carry no side condition, the holder owning the guard as
data; release frees the mutex.  This is the discipline every device-touching
handler of http_service.rs follows around context.rollup_fd.lock(). -/
inductive lockStep : LockState → LockState → Prop where
  | acquire (s : LockState) (t : Nat) (hpc : s.pc t = 0) (hfree : s.owner = none) :
      lockStep s { owner := some t, pc := setPc s.pc t 1 }
  | beginTx (s : LockState) (t : Nat) (hpc : s.pc t = 1) :
      lockStep s { owner := s.owner, pc := setPc s.pc t 2 }
  | endTx (s : LockState) (t : Nat) (hpc : s.pc t = 2) :
      lockStep s { owner := s.owner, pc := setPc s.pc t 3 }
  | release (s : LockState) (t : Nat) (hpc : s.pc t = 3) :
      lockStep s { owner := none, pc := setPc s.pc t 4 }

/-- States reachable by interleaving handler steps from the initial state. -/
def LockReachable (s : LockState) : Prop :=
  Relation.ReflTransGen lockStep initLock s

/-- Lock invariant: any connection inside the acquired section owns the
mutex. -/
def LockInv (s : LockState) : Prop :=
  ∀ t, s.pc t = 1 ∨ s.pc t = 2 ∨ s.pc t = 3 → s.owner = some t

/-- A reachable state in which connection 0 is inside its device
transaction. -/
def lockStateTx0 : LockState :=
  { owner := some 0, pc := setPc (setPc (fun _ => 0) 0 1) 0 2 }

/-- Device oracle whose every transaction fails, used to instantiate theorems
at concrete inputs. -/
def devErr : RollupDevice :=
  { finishResp := fun _ => Except.error "device closed"
    advanceResp := Except.error "device closed"
    inspectResp := Except.error "device closed"
    voucherResp := fun _ => Except.error "device closed" }

/-- Device oracle that accepts everything, answering the finish transaction
with discriminator 0 and serving an advance payload. -/
def devAdvance : RollupDevice :=
  { finishResp := fun _ => Except.ok { next_request_type := 0 }
    advanceResp := Except.ok { payload := [1, 2, 3] }
    inspectResp := Except.ok { payload := [9] }
    voucherResp := fun _ => Except.ok 0 }

/-- A destination with the required prefix and length whose tail characters
are not hexadecimal digits. -/
def zDest : String := "0xzzzzzzzzzzzzzzzzzzzzzzzzzzzzzzzzzzzzzzzz"

/-- A voucher bearing that destination. -/
def zVoucher : Voucher := { destination := zDest, payload := [] }

/-- Hexadecimal digit test, following the claim wording. -/
def isHexDigit (c : Char) : Bool :=
  ('0' ≤ c && c ≤ '9') || ('a' ≤ c && c ≤ 'f') || ('A' ≤ c && c ≤ 'F')

/-- The destination format asserted by the claim: 0x prefix, exactly
2 x ADDRESS_SIZE + 2 characters, hexadecimal tail. -/
def specHexAddress (s : String) : Bool :=
  strStartsWith s "0x" && (s.length == CARTESI_ROLLUP_ADDRESS_SIZE * 2 + 2)
    && (s.data.drop 2).all isHexDigit

/-- A state drive of eight zero bytes with every external step succeeding. -/
def env8 : StateDriveEnv :=
  { openReadOk := true, openRwOk := true, sizeOk := true, mapOk := true,
    flushOk := true, drive := List.replicate 8 0 }

/-- The same drive with a failing flush. -/
def envNoFlush : StateDriveEnv := { env8 with flushOk := false }

/-- The same drive that cannot be opened. -/
def envNoOpen : StateDriveEnv := { env8 with openReadOk := false, openRwOk := false }

/-- An empty process environment. -/
def emptyEnvMap : EnvMap := fun _ => none

/-- Helper: whatever the device answers, the body of the finish handler
issues exactly one finish transaction, carrying the boolean it was given. -/
theorem finishCore_trace (dev : RollupDevice) (a : Bool) :
    (finishCore dev a).2.filter DeviceCall.isFinishTx = [DeviceCall.finishTx a] := by
  unfold finishCore
  cases hfr : dev.finishResp a with
  | error e => simp [DeviceCall.isFinishTx]
  | ok fr =>
    unfold handle_rollup_requests
    by_cases h0 : fr.next_request_type = 0
    · simp only [h0, if_pos rfl]
      cases hadv : dev.advanceResp <;> simp [DeviceCall.isFinishTx]
    · by_cases h1 : fr.next_request_type = 1
      · simp only [if_neg h0, h1, if_pos rfl]
        cases hins : dev.inspectResp <;> simp [DeviceCall.isFinishTx]
      · simp [if_neg h0, if_neg h1, DeviceCall.isFinishTx]

/-- C1: in the finish handler the status accept maps to the boolean true and
reject to false in the single finish transaction issued to the device, and
any other status string yields a 400 validation failure with an empty device
interaction trace. -/
theorem finish_status_maps_accept_reject (dev : RollupDevice) (s : String) :
    ((finish dev { status := "accept" }).2.filter DeviceCall.isFinishTx
        = [DeviceCall.finishTx true])
    ∧ ((finish dev { status := "reject" }).2.filter DeviceCall.isFinishTx
        = [DeviceCall.finishTx false])
    ∧ (s ≠ "accept" → s ≠ "reject" →
        finish dev { status := s }
          = (HOutcome.text 400 "status must be accept or reject", [])) := by
  refine ⟨?_, ?_, ?_⟩
  · have h : finish dev { status := "accept" } = finishCore dev true := rfl
    rw [h, finishCore_trace]
  · have h : finish dev { status := "reject" } = finishCore dev false := rfl
    rw [h, finishCore_trace]
  · intro h1 h2
    unfold finish
    rw [if_neg h1, if_neg h2]

/-- Witness for C1: a concrete status string that is neither accept nor
reject is rejected with 400 and an empty device trace. -/
theorem finish_status_maps_accept_reject_witness :
    finish devErr { status := "maybe" }
      = (HOutcome.text 400 "status must be accept or reject", []) :=
  (finish_status_maps_accept_reject devErr "maybe").2.2 (by decide) (by decide)

/-- C9: init_state_drive returns the STATE_DRIVE value unchanged when the
variable is set; when it is unset the fixed default /dev/pmem1 is returned
and written back into the environment under STATE_DRIVE, leaving every other
variable untouched. -/
theorem init_state_drive_env (env : EnvMap) :
    (env "STATE_DRIVE" = none →
        (init_state_drive env).1 = "/dev/pmem1"
        ∧ (init_state_drive env).2 "STATE_DRIVE" = some "/dev/pmem1"
        ∧ ∀ k, k ≠ "STATE_DRIVE" → (init_state_drive env).2 k = env k)
    ∧ ∀ v, env "STATE_DRIVE" = some v →
        (init_state_drive env).1 = v ∧ (init_state_drive env).2 = env := by
  constructor
  · intro h
    refine ⟨?_, ?_, ?_⟩
    · simp [init_state_drive, h]
    · simp [init_state_drive, h]
    · intro k hk
      simp [init_state_drive, h, hk]
  · intro v h
    constructor
    · simp [init_state_drive, h]
    · simp [init_state_drive, h]

/-- Witness for C9: in an empty environment the default path is used and
persisted back. -/
theorem init_state_drive_env_witness :
    (init_state_drive emptyEnvMap).1 = "/dev/pmem1"
    ∧ (init_state_drive emptyEnvMap).2 "STATE_DRIVE" = some "/dev/pmem1" :=
  ⟨((init_state_drive_env emptyEnvMap).1 rfl).1,
   ((init_state_drive_env emptyEnvMap).1 rfl).2.1⟩

/-- C5: a voucher whose destination lacks the 0x prefix or whose length
differs from 2 x ADDRESS_SIZE + 2 is answered 400 address not valid with an
empty interaction trace: no lock is taken and no device call is made. -/
theorem voucher_rejects_bad_address (dev : RollupDevice) (v : Voucher)
    (h : strStartsWith v.destination "0x" = false
        ∨ v.destination.length ≠ CARTESI_ROLLUP_ADDRESS_SIZE * 2 + 2) :
    voucher dev v = (HOutcome.text 400 "address not valid", []) := by
  unfold voucher
  rw [if_pos (Or.symm h)]

/-- Witness for C5: a concrete three-character destination is rejected with
no device interaction. -/
theorem voucher_rejects_bad_address_witness :
    voucher devErr { destination := "abc", payload := [] }
      = (HOutcome.text 400 "address not valid", []) :=
  voucher_rejects_bad_address devErr { destination := "abc", payload := [] }
    (Or.inl (by decide))

/-- C6 (the code bug): raw_state_read never reaches its bounds rejection.
Whatever the environment and the arguments, the outcome is one of the two 500
responses of the open and size steps or the panic of the map step, because
the drive was opened read-only and the mutable map cannot succeed; in
particular no out-of-range request is answered 400. -/
theorem raw_state_read_always_fails (env : StateDriveEnv) (offset size : Nat) :
    raw_state_read env offset size = HOutcome.text 500 "Failed to open pmem device"
    ∨ raw_state_read env offset size = HOutcome.text 500 "Failed to get device size"
    ∨ raw_state_read env offset size = HOutcome.aborted "Failed to map the file" := by
  unfold raw_state_read
  cases ho : env.openReadOk <;> cases hs : env.sizeOk <;> simp [mapMut]

/-- C2: after a completed finish transaction, discriminator 0 yields the
advance request published under request_type advance_state and discriminator
1 the inspect request under inspect_state, both with outcome 200; any other
discriminator produces a 400 failure response for that request only.  The
handler is a pure function of the request and of the device outcomes,
carrying no cross-call state, so nothing of a failed call can poison a later
one: the last conjunct shows a later finish call, with well-formed device
outcomes of its own, again succeeds. -/
theorem finish_discriminator_dispatch (dev : RollupDevice) (fr : RollupFinish)
    (a : AdvanceRequest) (i : InspectRequest)
    (hfr : dev.finishResp true = Except.ok fr) :
    (fr.next_request_type = 0 → dev.advanceResp = Except.ok a →
        (finish dev { status := "accept" }).1
          = HOutcome.jsonRollup 200 (RollupHttpRequest.advanceState a)
        ∧ (RollupHttpRequest.advanceState a).requestType = "advance_state")
    ∧ (fr.next_request_type = 1 → dev.inspectResp = Except.ok i →
        (finish dev { status := "accept" }).1
          = HOutcome.jsonRollup 200 (RollupHttpRequest.inspectState i)
        ∧ (RollupHttpRequest.inspectState i).requestType = "inspect_state")
    ∧ (fr.next_request_type ≠ 0 → fr.next_request_type ≠ 1 →
        (finish dev { status := "accept" }).1
          = HOutcome.text 400 "error performing handle_rollup_requests: unknown request type")
    ∧ (∀ (dev2 : RollupDevice) (fr2 : RollupFinish) (a2 : AdvanceRequest),
        dev2.finishResp true = Except.ok fr2 → fr2.next_request_type = 0 →
        dev2.advanceResp = Except.ok a2 →
        (finish dev2 { status := "accept" }).1
          = HOutcome.jsonRollup 200 (RollupHttpRequest.advanceState a2)) := by
  have hfin : ∀ (d : RollupDevice), finish d { status := "accept" } = finishCore d true :=
    fun d => rfl
  refine ⟨?_, ?_, ?_, ?_⟩
  · intro h0 hadv
    rw [hfin]
    constructor
    · simp [finishCore, handle_rollup_requests, hfr, h0, hadv]
    · rfl
  · intro h1 hins
    rw [hfin]
    constructor
    · simp [finishCore, handle_rollup_requests, hfr, h1, hins]
    · rfl
  · intro h0 h1
    rw [hfin]
    simp [finishCore, handle_rollup_requests, hfr, h0, h1]
  · intro dev2 fr2 a2 hfr2 h0 hadv
    rw [hfin]
    simp [finishCore, handle_rollup_requests, hfr2, h0, hadv]

/-- Witness for C2: a concrete device answering discriminator 0 and an
advance payload makes the finish handler respond with the advance_state
shape. -/
theorem finish_discriminator_dispatch_witness :
    (finish devAdvance { status := "accept" }).1
      = HOutcome.jsonRollup 200 (RollupHttpRequest.advanceState { payload := [1, 2, 3] }) :=
  ((finish_discriminator_dispatch devAdvance { next_request_type := 0 }
      { payload := [1, 2, 3] } { payload := [9] } rfl).1 rfl rfl).1

/-- The lock invariant holds in the initial state. -/
theorem lockInv_init : LockInv initLock := by
  intro t h
  simp [initLock] at h

/-- Every interleaving step preserves the lock invariant. -/
theorem lockInv_step {s s' : LockState} (hinv : LockInv s) (hstep : lockStep s s') :
    LockInv s' := by
  cases hstep with
  | acquire t hpc hfree =>
      intro u hu
      by_cases hut : u = t
      · rw [hut]
      · exfalso
        have hu' : s.pc u = 1 ∨ s.pc u = 2 ∨ s.pc u = 3 := by
          simpa [setPc, hut] using hu
        have hown := hinv u hu'
        rw [hfree] at hown
        exact Option.noConfusion hown
  | beginTx t hpc =>
      intro u hu
      by_cases hut : u = t
      · rw [hut]
        exact hinv t (Or.inl hpc)
      · exact hinv u (by simpa [setPc, hut] using hu)
  | endTx t hpc =>
      intro u hu
      by_cases hut : u = t
      · rw [hut]
        exact hinv t (Or.inr (Or.inl hpc))
      · exact hinv u (by simpa [setPc, hut] using hu)
  | release t hpc =>
      intro u hu
      exfalso
      by_cases hut : u = t
      · rw [hut] at hu
        simp [setPc] at hu
      · have hu' : s.pc u = 1 ∨ s.pc u = 2 ∨ s.pc u = 3 := by
          simpa [setPc, hut] using hu
        have h1 := hinv u hu'
        have h2 := hinv t (Or.inr (Or.inr hpc))
        rw [h1] at h2
        exact hut (Option.some.inj h2)

/-- Every reachable state satisfies the lock invariant. -/
theorem lockInv_reachable {s : LockState} (h : LockReachable s) : LockInv s := by
  have h' : Relation.ReflTransGen lockStep initLock s := h
  clear h
  induction h' with
  | refl => exact lockInv_init
  | tail _ hstep ih => exact lockInv_step ih hstep

/-- C3: in every reachable interleaving of concurrent handlers over the
shared rollup device handle, no two distinct connections have a device
transaction in flight at the same instant: the mutex each handler acquires
before its transaction and drops only after it totally serializes the device
transactions, so the second begins only after the first completes. -/
theorem device_transactions_mutually_exclusive (s : LockState) (t u : Nat)
    (hreach : LockReachable s) (htu : t ≠ u) : ¬(s.pc t = 2 ∧ s.pc u = 2) := by
  rintro ⟨ht, hu⟩
  have hinv := lockInv_reachable hreach
  have h1 := hinv t (Or.inr (Or.inl ht))
  have h2 := hinv u (Or.inr (Or.inl hu))
  rw [h1] at h2
  exact htu (Option.some.inj h2)

/-- Witness for C3: in the concrete reachable state where connection 0 is
inside its device transaction, connection 1 is not also inside one. -/
theorem device_transactions_mutually_exclusive_witness :
    ¬(lockStateTx0.pc 0 = 2 ∧ lockStateTx0.pc 1 = 2) :=
  device_transactions_mutually_exclusive lockStateTx0 0 1
    (Relation.ReflTransGen.tail
      (Relation.ReflTransGen.tail Relation.ReflTransGen.refl
        (lockStep.acquire initLock 0 rfl rfl))
      (lockStep.beginTx { owner := some 0, pc := setPc (fun _ => 0) 0 1 } 0 rfl))
    (by decide)

/-- C4 counterexample: a destination with the 0x prefix and the required
length whose tail characters are not hexadecimal is not a hexadecimal address
in the sense of the claim, yet the voucher handler accepts it, takes the
locks, and performs the device voucher write, answering 201. -/
theorem voucher_hex_not_checked_cex :
    specHexAddress zVoucher.destination = false
    ∧ (voucher devAdvance zVoucher).2
        = [DeviceCall.lockContext, DeviceCall.lockDevice, DeviceCall.writeVoucher zVoucher]
    ∧ (voucher devAdvance zVoucher).1 = HOutcome.jsonIndex 201 0 := by
  exact ⟨by decide, by decide, by decide⟩

/-- C4 amended: the voucher handler rejects, with the 400 address not valid
response and an empty interaction trace, exactly the destinations whose
length differs from 2 x ADDRESS_SIZE + 2 or lacking the 0x prefix;
hexadecimal content of the remaining characters is not part of the check. -/
theorem voucher_validation_iff (dev : RollupDevice) (v : Voucher) :
    voucher dev v = (HOutcome.text 400 "address not valid", [])
      ↔ (v.destination.length ≠ CARTESI_ROLLUP_ADDRESS_SIZE * 2 + 2
          ∨ strStartsWith v.destination "0x" = false) := by
  by_cases hc : v.destination.length ≠ CARTESI_ROLLUP_ADDRESS_SIZE * 2 + 2
      ∨ strStartsWith v.destination "0x" = false
  · unfold voucher
    rw [if_pos hc]
    simp [hc]
  · unfold voucher
    rw [if_neg hc]
    cases hres : dev.voucherResp v with
    | ok idx => simp [hres, hc]
    | error e => simp [hres, hc]

/-- Witness for C4 amended: the iff at a concrete malformed destination. -/
theorem voucher_validation_iff_witness :
    voucher devErr { destination := "abc", payload := [] }
      = (HOutcome.text 400 "address not valid", [])
      ↔ (("abc" : String).length ≠ CARTESI_ROLLUP_ADDRESS_SIZE * 2 + 2
          ∨ strStartsWith "abc" "0x" = false) :=
  voucher_validation_iff devErr { destination := "abc", payload := [] }

/-- C7 (the code bug): on an eight-byte drive with every external step
succeeding, writing the bytes 1 2 3 at offset 0 succeeds and updates the
drive, but the subsequent read of the same range panics at the map step
instead of returning those bytes, because raw_state_read opens the drive
read-only. -/
theorem write_then_read_bug :
    (raw_state_write env8 0 [1, 2, 3]).1 = HOutcome.text 200 "Data written successfully"
    ∧ (raw_state_write env8 0 [1, 2, 3]).2.drive = [1, 2, 3, 0, 0, 0, 0, 0]
    ∧ raw_state_read (raw_state_write env8 0 [1, 2, 3]).2 0 3
        = HOutcome.aborted "Failed to map the file" := by
  exact ⟨by decide, by decide, by decide⟩

/-- The round trip the specification describes, checked against the intended
read path that opens the drive read-write: a successful in-bounds write
followed by a read of the same window returns exactly the bytes written. -/
theorem write_then_read_intended (env : StateDriveEnv) (offset : Nat) (bytes : List Nat)
    (hopen : env.openRwOk = true) (hsize : env.sizeOk = true) (hmap : env.mapOk = true)
    (hflush : env.flushOk = true) (hcap : env.drive.length < USIZE_MOD)
    (hbound : offset + bytes.length ≤ env.drive.length) :
    (raw_state_write env offset bytes).1 = HOutcome.text 200 "Data written successfully"
    ∧ raw_state_read_intended (raw_state_write env offset bytes).2 offset bytes.length
        = HOutcome.octets 200 bytes := by
  have hlt : offset + bytes.length < USIZE_MOD := lt_of_le_of_lt hbound hcap
  have hmod : (offset + bytes.length) % USIZE_MOD = offset + bytes.length :=
    Nat.mod_eq_of_lt hlt
  have hoff : offset ≤ env.drive.length := le_trans (Nat.le_add_right _ _) hbound
  have h1 : ¬ (offset + bytes.length > env.drive.length) := not_lt.mpr hbound
  have h2 : ¬ (offset + bytes.length < offset) := by omega
  have h3 : ¬ (offset + bytes.length - offset ≠ bytes.length) := by omega
  have hwrite : raw_state_write env offset bytes
      = (HOutcome.text 200 "Data written successfully",
         { env with drive := env.drive.take offset ++ bytes
             ++ env.drive.drop (offset + bytes.length) }) := by
    unfold raw_state_write
    simp [hopen, hsize, hmap, hflush, mapMut, writeBoundsExceeded, hmod, h1, h2, h3]
  have hlenTake : (env.drive.take offset).length = offset := by
    rw [List.length_take]
    omega
  obtain ⟨d', hd'⟩ : ∃ d', env.drive.take offset ++ bytes
      ++ env.drive.drop (offset + bytes.length) = d' := ⟨_, rfl⟩
  have hlenNew : d'.length = env.drive.length := by
    rw [← hd']
    simp only [List.length_append, hlenTake, List.length_drop]
    omega
  have hwindow : (d'.drop offset).take bytes.length = bytes := by
    rw [← hd', List.append_assoc, List.drop_left' hlenTake, List.take_left' rfl]
  rw [hd'] at hwrite
  refine ⟨by rw [hwrite], ?_⟩
  rw [hwrite]
  unfold raw_state_read_intended
  have hb : readBoundsExceeded offset bytes.length
      ({ env with drive := d' } : StateDriveEnv).drive.length = false := by
    simp [readBoundsExceeded, hmod, hlenNew, h1]
  simp [hopen, hsize, hmap, mapMut, hb, hmod, h2, Nat.add_sub_cancel_left, hwindow]

/-- C8 counterexample: an in-bounds write whose flush fails panics out of the
expect and produces no HTTP response at all, so the flush failure is not
surfaced to the caller as a server-side error response. -/
theorem flush_failure_no_response_cex :
    (raw_state_write envNoFlush 0 [7]).1 = HOutcome.aborted "Failed to flush the changes"
    ∧ HOutcome.isResponse (raw_state_write envNoFlush 0 [7]).1 = false := by
  exact ⟨by decide, by decide⟩

/-- C8 amended: a failure to open the state drive or to query its size is
surfaced as a 500 server-side response for that request only; a failure to
map the drive and a flush failure in raw_state_write instead abort the
handler through expect without producing any response. -/
theorem raw_state_resource_errors (env : StateDriveEnv) (offset size : Nat)
    (bytes : List Nat) :
    (env.openReadOk = false →
        raw_state_read env offset size = HOutcome.text 500 "Failed to open pmem device"
        ∧ raw_state_size env = HOutcome.text 500 "Failed to open pmem device")
    ∧ (env.openRwOk = false →
        (raw_state_write env offset bytes).1 = HOutcome.text 500 "Failed to open pmem device")
    ∧ (env.openReadOk = true → env.sizeOk = false →
        raw_state_read env offset size = HOutcome.text 500 "Failed to get device size")
    ∧ (env.openRwOk = true → env.sizeOk = true → env.mapOk = false →
        (raw_state_write env offset bytes).1 = HOutcome.aborted "Failed to map the file"
        ∧ HOutcome.isResponse (raw_state_write env offset bytes).1 = false)
    ∧ (env.openRwOk = true → env.sizeOk = true → env.mapOk = true → env.flushOk = false →
        offset + bytes.length ≤ env.drive.length → env.drive.length < USIZE_MOD →
        (raw_state_write env offset bytes).1 = HOutcome.aborted "Failed to flush the changes"
        ∧ HOutcome.isResponse (raw_state_write env offset bytes).1 = false) := by
  refine ⟨?_, ?_, ?_, ?_, ?_⟩
  · intro h
    exact ⟨by simp [raw_state_read, h], by simp [raw_state_size, h]⟩
  · intro h
    simp [raw_state_write, h]
  · intro ho hs
    simp [raw_state_read, ho, hs]
  · intro ho hs hm
    have hres : (raw_state_write env offset bytes).1 = HOutcome.aborted "Failed to map the file" := by
      simp [raw_state_write, ho, hs, hm, mapMut]
    exact ⟨hres, by rw [hres]; rfl⟩
  · intro ho hs hm hf hbound hcap
    have hmod : (offset + bytes.length) % USIZE_MOD = offset + bytes.length :=
      Nat.mod_eq_of_lt (lt_of_le_of_lt hbound hcap)
    have h1 : ¬ (offset + bytes.length > env.drive.length) := not_lt.mpr hbound
    have h2 : ¬ (offset + bytes.length < offset) := by omega
    have h3 : ¬ (offset + bytes.length - offset ≠ bytes.length) := by omega
    have hres : (raw_state_write env offset bytes).1
        = HOutcome.aborted "Failed to flush the changes" := by
      unfold raw_state_write
      simp [ho, hs, hm, hf, mapMut, writeBoundsExceeded, hmod, h1, h2, h3]
    exact ⟨hres, by rw [hres]; rfl⟩

/-- Witness for C8 amended: the open failure is a 500 response and the flush
failure aborts the handler, at concrete environments. -/
theorem raw_state_resource_errors_witness :
    raw_state_read envNoOpen 0 1 = HOutcome.text 500 "Failed to open pmem device"
    ∧ (raw_state_write envNoFlush 0 [7]).1 = HOutcome.aborted "Failed to flush the changes" :=
  ⟨((raw_state_resource_errors envNoOpen 0 1 []).1 rfl).1,
   ((raw_state_resource_errors envNoFlush 0 0 [7]).2.2.2.2 rfl rfl rfl rfl
      (by decide) (by decide)).1⟩

/-- C10: the bounds tests of raw_state_read and raw_state_write wrap the sum
modulo 2 ^ 64: at offset 2 ^ 64 - 1 and size 1 the mathematical sum exceeds a
capacity of 4096 yet neither test rejects; and whenever the sum does not
overflow, each test rejects exactly the out-of-range requests. -/
theorem bounds_check_wraps :
    (readBoundsExceeded (USIZE_MOD - 1) 1 4096 = false
      ∧ USIZE_MOD - 1 + 1 > 4096
      ∧ writeBoundsExceeded (USIZE_MOD - 1) 1 4096 = false)
    ∧ (∀ offset size capacity : Nat, offset + size < USIZE_MOD →
        (readBoundsExceeded offset size capacity = true ↔ offset + size > capacity))
    ∧ (∀ offset len mmapLen : Nat, offset + len < USIZE_MOD →
        (writeBoundsExceeded offset len mmapLen = true ↔ offset + len > mmapLen)) := by
  refine ⟨⟨by decide, by decide, by decide⟩, ?_, ?_⟩
  · intro offset size capacity h
    simp [readBoundsExceeded, Nat.mod_eq_of_lt h]
  · intro offset len mmapLen h
    simp [writeBoundsExceeded, Nat.mod_eq_of_lt h]

/-- Witness for C10: the non-overflowing characterization at concrete
numbers. -/
theorem bounds_check_wraps_witness :
    readBoundsExceeded 3 4 5 = true ↔ 3 + 4 > 5 :=
  bounds_check_wraps.2.1 3 4 5 (by decide)

end RollupHttp
